/-
  Verification of the presentation state machine and report renderer of the
  vscode-jsx-info extension (src/extension.ts), shallowly embedded in Lean 4.

  Modelling conventions:
  * A JS `Record<string, A>` is an association list in key-insertion order
    (component/prop/file names are non-numeric strings, so JS enumeration
    order is insertion order); `Object.keys` enumerates the list's keys.
  * `Array.prototype.sort` with a comparator is modelled as a stable
    insertion sort driven by the same three-way comparator.
  * JS numbers used as counts and 1-based source positions are modelled as
    `Nat` and `Int`; the single floating-point operation in the code,
    `((count / total) * 100).toFixed(0)`, is modelled by exact rational
    rounding (ties rounded up, matching `toFixed` on nonnegative values),
    with the JS `NaN` / `Infinity` renderings for a zero or missing total.
  * Asynchronous host effects (change notifications, the analyze call, error
    messages, rethrown non-Error values) are recorded as an explicit event
    trace; the outcome of the awaited external `jsx-info.analyze` call is an
    input to the model.  Output-channel logging is not modelled.
  * The sequential option prompts (workspace folder pick, input boxes, quick
    pick) are external collaborators; their answers are inputs to the model.
-/
import Mathlib

/-- A JS object used as a string-keyed dictionary, in key-insertion order. -/
abbrev Dict (A : Type) := List (String × A)

/-- JS property lookup `dict[k]`: `some` value or `none` (i.e. `undefined`). -/
def lookupR {A : Type} (dict : Dict A) (k : String) : Option A :=
  (dict.find? (fun p => p.1 == k)).map (fun p => p.2)

/-- Stable insertion of `x` into `l` for a JS three-way comparator: `x` is
placed before the first element `y` with `cmp x y ≤ 0`, which keeps elements
comparing equal in their original relative order. -/
def insertCmp {α : Type} (cmp : α → α → Int) (x : α) : List α → List α
  | [] => [x]
  | y :: ys => if cmp x y ≤ 0 then x :: y :: ys else y :: insertCmp cmp x ys

/-- Stable comparator sort, the model of `Array.prototype.sort(cmp)`. -/
def sortCmp {α : Type} (cmp : α → α → Int) : List α → List α
  | [] => []
  | x :: xs => insertCmp cmp x (sortCmp cmp xs)

/-- The `"asc" | "desc"` direction argument of `sortObject`. -/
inductive Direction : Type
  | asc
  | desc
deriving DecidableEq

/-- The `const dir = direction === "asc" ? 1 : -1;` line of `sortObject`. -/
def dirSign : Direction → Int
  | Direction.asc => 1
  | Direction.desc => -1

/-- The comparator body of `sortObject`:
`if (a < b) return dir * -1; if (a > b) return dir * 1; return 0;`,
where the JS `<` on the sort-key type is passed in as `klt`
(JS `a > b` is `klt b a` for the key types used here). -/
def jsCompare {K : Type} (klt : K → K → Bool) (dir : Int) (a b : K) : Int :=
  if klt a b then dir * (-1) else if klt b a then dir * 1 else 0

/-- `sortObject(dict, direction, getSortKey)` from src/extension.ts: collect
the entries of `dict` and sort them by the projected key with the JS
comparator.  `klt` is the JS `<` relation of the key type. -/
def sortObject {A K : Type} (dict : Dict A) (direction : Direction)
    (getSortKey : String → A → K) (klt : K → K → Bool) : Dict A :=
  sortCmp
    (fun ra rb =>
      jsCompare klt (dirSign direction) (getSortKey ra.1 ra.2) (getSortKey rb.1 rb.2))
    dict

/-- JS `<` on numbers, for number-valued sort keys. -/
def natLtB (a b : Nat) : Bool := decide (a < b)

/-- JS `<` on strings (lexicographic), for string-valued sort keys. -/
def strLtB (a b : String) : Bool := decide (a < b)

/-- JS `<` where a key may be `undefined` (`dict[k]` misses): every relational
comparison involving `undefined` is false. -/
def optNatLtB : Option Nat → Option Nat → Bool
  | some a, some b => decide (a < b)
  | _, _ => false

/-- `sortObjectValuesDesc(dict)` from src/extension.ts. -/
def sortObjectValuesDesc {A : Type} (klt : A → A → Bool) (dict : Dict A) : Dict A :=
  sortObject dict Direction.desc (fun _k v => v) klt

/-- `sortObjectKeysAsc(dict)` from src/extension.ts. -/
def sortObjectKeysAsc {A : Type} (dict : Dict A) : Dict A :=
  sortObject dict Direction.asc (fun k _v => k) strLtB

/-- Whitespace class of the regex `/\s+/` (the characters relevant here). -/
def isJsWs (c : Char) : Bool := c = ' ' || c = '\t' || c = '\n' || c = '\r'

/-- Worker for `String.prototype.split(/\s+/)`: pieces between maximal
whitespace runs, keeping the empty pieces JS produces at the boundaries. -/
def jsSplitWsAux : List Char → Bool → String → List String → List String
  | [], _, cur, acc => (cur :: acc).reverse
  | c :: cs, inRun, cur, acc =>
    if isJsWs c then
      if inRun then jsSplitWsAux cs true cur acc
      else jsSplitWsAux cs true "" (cur :: acc)
    else jsSplitWsAux cs false (cur.push c) acc

/-- `comp.split(/\s+/)` from `refresh()`. -/
def jsSplitWs (s : String) : List String := jsSplitWsAux s.toList false "" []

/-- A 1-based line / 0-based column source position from jsx-info. -/
structure Loc where
  line : Int
  column : Int
deriving DecidableEq

/-- An entry of `result.errors`: the recorded parse-error location. -/
structure ErrInfo where
  loc : Loc
  message : String
deriving DecidableEq

/-- An entry of `result.lineUsage[component][prop]`: one prop occurrence. -/
structure LineUsageObj where
  propCode : String
  filename : String
  startLoc : Loc
  endLoc : Loc
deriving DecidableEq

/-- The `jsxInfo.Analysis` result produced by the external analyze
collaborator.  `elapsedTime` is only ever interpolated into a label, so it is
carried as its rendered decimal string. -/
structure Analysis where
  directory : String
  filenames : List String
  elapsedTime : String
  componentTotal : Nat
  componentUsageTotal : Nat
  componentUsage : Dict Nat
  propUsage : Dict (Dict Nat)
  lineUsage : Dict (Dict (List LineUsageObj))
  errors : Dict ErrInfo
  suggestedPlugins : List String
deriving DecidableEq

/-- The `Mode` tagged union of the provider. -/
inductive Mode : Type
  | empty
  | loading
  | ok (result : Analysis)
deriving DecidableEq

/-- The mutable fields of `JSXInfoProvider`. -/
structure ProviderState where
  searchDir : Option String
  searchComponents : Option String
  searchReport : Option String
  searchProp : Option String
  mode : Mode
deriving DecidableEq

/-- The argument object passed to `jsxInfo.analyze` in `refresh()`. -/
structure AnalyzeOptions where
  directory : Option String
  components : List String
  prop : Option String
deriving DecidableEq

/-- A vscode workspace folder, reduced to the fields the code reads. -/
structure WorkspaceFolder where
  scheme : String
  fsPath : String
deriving DecidableEq

/-- One of the three fixed quick-pick items offered by `_getOptions`. -/
inductive ReportChoice : Type
  | usage
  | props
  | lines
deriving DecidableEq

/-- The `label` of a report quick-pick item. -/
def ReportChoice.label : ReportChoice → String
  | ReportChoice.usage => "Usage"
  | ReportChoice.props => "Props"
  | ReportChoice.lines => "Lines"

/-- The answers of the external prompt collaborators during one
`_getOptions` call (`none` means the user cancelled that prompt). -/
structure PromptInputs where
  workspaceFolders : List WorkspaceFolder
  folderPick : Option WorkspaceFolder
  componentsInput : Option String
  reportPick : Option ReportChoice
  propInput : Option String
deriving DecidableEq

/-- How the awaited `jsxInfo.analyze` call settles: fulfilled, rejected with
an `Error` instance (carrying its message), or rejected with a non-Error
value. -/
inductive AnalyzeOutcome : Type
  | success (result : Analysis)
  | errorFailure (message : String)
  | nonErrorFailure
deriving DecidableEq

/-- Observable host effects of `refresh` / `run`, in order. -/
inductive Event : Type
  | fireChange
  | analyzeCall (opts : AnalyzeOptions)
  | showError (msg : String)
  | rethrow
deriving DecidableEq

/-- Collapsible state of a tree item. -/
inductive CollapsibleState : Type
  | leaf
  | expanded
deriving DecidableEq

/-- A value in a command's `arguments` array. -/
inductive ArgVal : Type
  | str (s : String)
  | num (n : Int)
deriving DecidableEq

/-- The `command` field of a tree item. -/
structure CommandSpec where
  title : String
  command : String
  arguments : List ArgVal
deriving DecidableEq

/-- The `TreeItem` hierarchy: every node carries a label, the optional
`description`, its collapsible state, an optional activation command and its
`children` list. -/
inductive TreeItem : Type
  | mk (label : String) (description : Option String)
      (collapsibleState : CollapsibleState) (command : Option CommandSpec)
      (children : List TreeItem)

/-- Label of a tree item. -/
def TreeItem.label : TreeItem → String
  | TreeItem.mk l _ _ _ _ => l

/-- Description of a tree item (never set by this extension). -/
def TreeItem.description : TreeItem → Option String
  | TreeItem.mk _ d _ _ _ => d

/-- Collapsible state of a tree item. -/
def TreeItem.collapsibleState : TreeItem → CollapsibleState
  | TreeItem.mk _ _ c _ _ => c

/-- Activation command of a tree item. -/
def TreeItem.command : TreeItem → Option CommandSpec
  | TreeItem.mk _ _ _ c _ => c

/-- Children of a tree item. -/
def TreeItem.children : TreeItem → List TreeItem
  | TreeItem.mk _ _ _ _ c => c

/-- The `TreeInfo` class: plain leaf with a label. -/
def TreeInfo (label : String) : TreeItem :=
  TreeItem.mk label none CollapsibleState.leaf none []

/-- The `TreeCommand` class: leaf that triggers `command` with `args`. -/
def TreeCommand (label : String) (command : String) (args : List ArgVal) : TreeItem :=
  TreeItem.mk label none CollapsibleState.leaf
    (some { title := label, command := command, arguments := args }) []

/-- The `TreeOpenFile` class: leaf that triggers `jsxInfo._openFile` with the
filename and the four position fields. -/
def TreeOpenFile (label : String) (filename : String)
    (startLine startColumn endLine endColumn : Int) : TreeItem :=
  TreeItem.mk label none CollapsibleState.leaf
    (some { title := label, command := "jsxInfo._openFile",
            arguments := [ArgVal.str filename, ArgVal.num startLine,
                          ArgVal.num startColumn, ArgVal.num endLine,
                          ArgVal.num endColumn] }) []

/-- The `TreeFolder` class: an empty input list is replaced by the single
placeholder `TreeInfo "No results"`; otherwise the falsy (`undefined`)
entries are filtered out of the input list. -/
def TreeFolder (label : String) (children : List (Option TreeItem)) : TreeItem :=
  TreeItem.mk label none CollapsibleState.expanded none
    (if children.length = 0 then [TreeInfo "No results"]
     else children.filterMap id)

/-- The `sep` constant of `getChildren` (`"  \u{00b7}  "`). -/
def sep : String := "  ·  "

/-- Rendering of `${total}` where `total` may be `undefined`. -/
def totalStr : Option Nat → String
  | none => "undefined"
  | some n => toString n

/-- The `((count / total) * 100).toFixed(0)` computation of the Props report,
in exact rational arithmetic: for a positive total this is `100 * count /
total` rounded to the nearest integer (ties up, as `toFixed` rounds
nonnegative values); a missing or zero total yields the strings JS prints for
`NaN` and `Infinity`. -/
def pctString (count : Nat) (total : Option Nat) : String :=
  match total with
  | none => "NaN"
  | some t =>
    if t = 0 then (if count = 0 then "NaN" else "Infinity")
    else toString ((200 * count + t) / (2 * t))

/-- One leaf of the Usage report: `` `${count}${sep}<${componentName}>` ``. -/
def usageLeaf (p : String × Nat) : TreeItem :=
  TreeInfo (toString p.2 ++ sep ++ "<" ++ p.1 ++ ">")

/-- One leaf of the Props report:
`` `${count}${sep}${propName}${sep}${pct}%` ``. -/
def propLeaf (total : Option Nat) (q : String × Nat) : TreeItem :=
  TreeInfo (toString q.2 ++ sep ++ q.1 ++ sep ++ pctString q.2 total ++ "%")

/-- One per-component folder of the Props report. -/
def propComponentFolder (componentUsage : Dict Nat) (p : String × Dict Nat) : TreeItem :=
  TreeFolder ("<" ++ p.1 ++ ">" ++ sep ++ totalStr (lookupR componentUsage p.1))
    ((sortObjectValuesDesc natLtB p.2).map
      (fun q => some (propLeaf (lookupR componentUsage p.1) q)))

/-- One per-component folder of the Lines report. -/
def linesComponentFolder (p : String × Dict (List LineUsageObj)) : TreeItem :=
  TreeFolder p.1
    ((sortObjectKeysAsc p.2).map (fun q =>
      some (TreeFolder q.1
        (q.2.map (fun obj =>
          some (TreeOpenFile obj.propCode obj.filename obj.startLoc.line
            obj.startLoc.column obj.endLoc.line obj.endLoc.column))))))

/-- The directory summary folder of the `ok` rendering. -/
def dirFolder (result : Analysis) : TreeItem :=
  TreeFolder result.directory
    [ some (TreeInfo (toString result.filenames.length ++ " files in "
        ++ result.elapsedTime ++ " seconds"))
    , some (TreeInfo (toString result.componentTotal ++ " components, "
        ++ toString result.componentUsageTotal ++ " uses"))
    , if result.errors.length > 0 then
        some (TreeFolder "Errors"
          ((sortObjectKeysAsc result.errors).map (fun p =>
            some (TreeOpenFile p.1 p.1 p.2.loc.line p.2.loc.column
              p.2.loc.line p.2.loc.column))))
      else none
    , if result.suggestedPlugins.length > 0 then
        some (TreeFolder "Suggested Plugins"
          (result.suggestedPlugins.map (fun plugin => some (TreeInfo plugin))))
      else none ]

/-- The report section of the `ok` rendering: the
`searchReport === "Usage" ? ... : searchReport === "Props" ? ... : ...`
conditional chain of `getChildren`. -/
def reportSection (searchReport : Option String) (result : Analysis) : TreeItem :=
  if searchReport = some "Usage" then
    TreeFolder "Usage Report"
      ((sortObjectValuesDesc natLtB result.componentUsage).map
        (fun p => some (usageLeaf p)))
  else if searchReport = some "Props" then
    TreeFolder "Props Report"
      ((sortObject result.propUsage Direction.desc
          (fun k _ => lookupR result.componentUsage k) optNatLtB).map
        (fun p => some (propComponentFolder result.componentUsage p)))
  else
    TreeFolder "Lines Report"
      ((sortObjectKeysAsc result.lineUsage).map
        (fun p => some (linesComponentFolder p)))

/-- `getChildren(undefined)`: the root items for the current mode. -/
def getChildrenRoot (s : ProviderState) : List TreeItem :=
  match s.mode with
  | Mode.empty => [TreeCommand "Run" "jsxInfo.run" []]
  | Mode.loading => [TreeInfo "Scanning..."]
  | Mode.ok result =>
    [ TreeCommand "Run" "jsxInfo.run" []
    , TreeCommand "Refresh" "jsxInfo.refresh" []
    , dirFolder result
    , reportSection s.searchReport result ]

/-- `getChildren(element)`: children of a node, or the root items. -/
def getChildren (s : ProviderState) : Option TreeItem → List TreeItem
  | some element => element.children
  | none => getChildrenRoot s

/-- The `components` value computed in `refresh()`:
`comp === "" || comp === "*" ? [] : comp.split(/\s+/)` with
`comp = this.searchComponents || ""`. -/
def refreshComponents (searchComponents : Option String) : List String :=
  let comp := searchComponents.getD ""
  if comp = "" || comp = "*" then [] else jsSplitWs comp

/-- The argument object `refresh()` passes to `jsxInfo.analyze`. -/
def refreshOptions (s : ProviderState) : AnalyzeOptions :=
  { directory := s.searchDir
  , components := refreshComponents s.searchComponents
  , prop := s.searchProp }

/-- `JSXInfoProvider.refresh()`: unconditionally enters `loading`, fires a
change notification, awaits the analyze call (its settlement is the
`outcome` input) and then transitions per the `try`/`catch`:
fulfilled → `ok`, `Error` rejection → message surfaced and `empty`,
non-Error rejection → rethrown with the mode left as is. -/
def refresh (s : ProviderState) (outcome : AnalyzeOutcome) :
    ProviderState × List Event :=
  let sL := { s with mode := Mode.loading }
  let opts := refreshOptions sL
  match outcome with
  | AnalyzeOutcome.success result =>
    ({ sL with mode := Mode.ok result },
     [Event.fireChange, Event.analyzeCall opts, Event.fireChange])
  | AnalyzeOutcome.errorFailure msg =>
    ({ sL with mode := Mode.empty },
     [Event.fireChange, Event.analyzeCall opts, Event.showError msg,
      Event.fireChange])
  | AnalyzeOutcome.nonErrorFailure =>
    (sL, [Event.fireChange, Event.analyzeCall opts, Event.rethrow])

/-- The destructuring
`const [dir = await showWorkspaceFolderPick(...)] = workspaceFolders || []`:
the first workspace folder, else the folder-pick answer. -/
def pickDir (i : PromptInputs) : Option WorkspaceFolder :=
  match i.workspaceFolders with
  | [] => i.folderPick
  | d :: _ => some d

/-- `JSXInfoProvider._getOptions()`: runs the sequential prompts, mutating
the provider fields exactly where the source assigns them, and returns the
success flag together with the new state and any error message shown. -/
def getOptions (s : ProviderState) (i : PromptInputs) :
    Bool × ProviderState × List Event :=
  match pickDir i with
  | none => (false, s, [])
  | some dir =>
    if dir.scheme ≠ "file" then
      (false, s,
       [Event.showError ("JSX Info doesn't support files over " ++ dir.scheme)])
    else
      let s1 := { s with searchDir := some dir.fsPath,
                         searchComponents := i.componentsInput }
      match i.componentsInput with
      | none => (false, s1, [])
      | some _ =>
        match i.reportPick with
        | none => (false, s1, [])
        | some choice =>
          let s2 := { s1 with searchReport := some choice.label }
          if choice.label = "Lines" then
            let s3 := { s2 with searchProp := i.propInput }
            match i.propInput with
            | none => (false, s3, [])
            | some p => if p = "" then (false, s3, []) else (true, s3, [])
          else (true, s2, [])

/-- `JSXInfoProvider.run()`: collect options; on cancellation stop,
otherwise proceed to `refresh()`. -/
def run (s : ProviderState) (i : PromptInputs) (outcome : AnalyzeOutcome) :
    ProviderState × List Event :=
  match getOptions s i with
  | (true, s1, ev) =>
    let r := refresh s1 outcome
    (r.1, ev ++ r.2)
  | (false, s1, ev) => (s1, ev)

/-- The provider state produced by a completed prompt round that picked the
report `choice` in the workspace folder `d` with the components answer
`comp` (the non-`Lines` success path of `_getOptions`). -/
def optionsResultState (s : ProviderState) (d : WorkspaceFolder)
    (comp : String) (choice : ReportChoice) : ProviderState :=
  { s with searchDir := some d.fsPath, searchComponents := some comp,
           searchReport := some choice.label }

/-- A `vscode.Range` as the four numbers it is constructed from. -/
structure Range4 where
  startLine : Int
  startColumn : Int
  endLine : Int
  endColumn : Int
deriving DecidableEq

/-- The reveal strategies used by the navigation dispatcher. -/
inductive RevealType : Type
  | inCenterIfOutsideViewport
deriving DecidableEq

/-- Observable host effects of `openFile`, in order. -/
inductive NavEffect : Type
  | openDocument (filename : String)
  | reveal (range : Range4) (t : RevealType)
  | setSelection (startLine startColumn endLine endColumn : Int)
  | showError (msg : String)
deriving DecidableEq

/-- `openFile(filename, startLine, startColumn, endLine, endColumn)`:
opens the document, builds the range from `startLine - 1` / `endLine - 1`
with the columns unchanged, reveals it centered if outside the viewport and
sets the selection to the range's endpoints.  `openFails` is the message of
the error thrown while opening/showing the document, if any (the `catch`
shows it to the user). -/
def openFile (filename : String)
    (startLine startColumn endLine endColumn : Int)
    (openFails : Option String) : List NavEffect :=
  match openFails with
  | some msg => [NavEffect.showError msg]
  | none =>
    let range : Range4 :=
      { startLine := startLine - 1, startColumn := startColumn
      , endLine := endLine - 1, endColumn := endColumn }
    [ NavEffect.openDocument filename
    , NavEffect.reveal range RevealType.inCenterIfOutsideViewport
    , NavEffect.setSelection range.startLine range.startColumn
        range.endLine range.endColumn ]

/-- A minimal concrete analysis result, for concrete instantiations. -/
def sampleAnalysis : Analysis :=
  { directory := "/project", filenames := [], elapsedTime := "0"
  , componentTotal := 0, componentUsageTotal := 0, componentUsage := []
  , propUsage := [], lineUsage := [], errors := [], suggestedPlugins := [] }

/-- A concrete analysis result with two components, for the Usage report. -/
def usageAnalysis : Analysis :=
  { directory := "/project", filenames := [], elapsedTime := "0"
  , componentTotal := 2, componentUsageTotal := 13
  , componentUsage := [("Button", 10), ("Card", 3)]
  , propUsage := [], lineUsage := [], errors := [], suggestedPlugins := [] }

/-- A concrete analysis result with one component and one prop, for the
Props report. -/
def propsAnalysis : Analysis :=
  { directory := "/project", filenames := [], elapsedTime := "0"
  , componentTotal := 1, componentUsageTotal := 4
  , componentUsage := [("Button", 4)]
  , propUsage := [("Button", [("id", 2)])]
  , lineUsage := [], errors := [], suggestedPlugins := [] }

/-- Inserting with `insertCmp` is a permutation-preserving cons. -/
theorem insertCmp_perm {α : Type} (cmp : α → α → Int) (x : α) (l : List α) :
    List.Perm (insertCmp cmp x l) (x :: l) := by
  induction l with
  | nil => simp [insertCmp]
  | cons y ys ih =>
    simp only [insertCmp]
    by_cases h : cmp x y ≤ 0
    · rw [if_pos h]
    · rw [if_neg h]
      exact (ih.cons y).trans (List.Perm.swap x y ys)

/-- `sortCmp` permutes its input. -/
theorem sortCmp_perm {α : Type} (cmp : α → α → Int) (l : List α) :
    List.Perm (sortCmp cmp l) l := by
  induction l with
  | nil => simp [sortCmp]
  | cons x xs ih =>
    exact (insertCmp_perm cmp x (sortCmp cmp xs)).trans (ih.cons x)

/-- `insertCmp` preserves pairwise comparator-nonpositivity for a total and
transitive comparator. -/
theorem insertCmp_pairwise {α : Type} (cmp : α → α → Int)
    (htot : ∀ a b, cmp a b ≤ 0 ∨ cmp b a ≤ 0)
    (htrans : ∀ a b c, cmp a b ≤ 0 → cmp b c ≤ 0 → cmp a c ≤ 0)
    (x : α) (l : List α)
    (hl : List.Pairwise (fun a b => cmp a b ≤ 0) l) :
    List.Pairwise (fun a b => cmp a b ≤ 0) (insertCmp cmp x l) := by
  induction l with
  | nil => simp [insertCmp]
  | cons y ys ih =>
    rcases List.pairwise_cons.mp hl with ⟨hy, hys⟩
    simp only [insertCmp]
    by_cases hxy : cmp x y ≤ 0
    · rw [if_pos hxy]
      refine List.pairwise_cons.mpr ⟨?_, hl⟩
      intro z hz
      rcases List.mem_cons.mp hz with rfl | hz
      · exact hxy
      · exact htrans x y z hxy (hy z hz)
    · rw [if_neg hxy]
      have hyx : cmp y x ≤ 0 := by
        rcases htot x y with h | h
        · exact absurd h hxy
        · exact h
      refine List.pairwise_cons.mpr ⟨?_, ih hys⟩
      intro z hz
      have hz2 : z = x ∨ z ∈ ys :=
        List.mem_cons.mp ((insertCmp_perm cmp x ys).mem_iff.mp hz)
      rcases hz2 with rfl | hz2
      · exact hyx
      · exact hy z hz2

/-- The output of `sortCmp` is pairwise comparator-nonpositive for a total
and transitive comparator. -/
theorem sortCmp_pairwise {α : Type} (cmp : α → α → Int)
    (htot : ∀ a b, cmp a b ≤ 0 ∨ cmp b a ≤ 0)
    (htrans : ∀ a b c, cmp a b ≤ 0 → cmp b c ≤ 0 → cmp a c ≤ 0)
    (l : List α) :
    List.Pairwise (fun a b => cmp a b ≤ 0) (sortCmp cmp l) := by
  induction l with
  | nil => simp [sortCmp]
  | cons x xs ih => exact insertCmp_pairwise cmp htot htrans x _ ih

/-- The descending-by-value comparator is nonpositive exactly when the second
value is at most the first. -/
theorem jsCompare_desc_nat_le (a b : Nat) :
    jsCompare natLtB (dirSign Direction.desc) a b ≤ 0 ↔ b ≤ a := by
  unfold jsCompare natLtB dirSign
  by_cases h1 : a < b
  · rw [if_pos (decide_eq_true h1)]
    constructor
    · intro h
      exact absurd h (by decide)
    · intro h
      exact absurd h (by omega)
  · rw [if_neg (by simpa using h1)]
    by_cases h2 : b < a
    · rw [if_pos (decide_eq_true h2)]
      constructor
      · intro _
        omega
      · intro _
        decide
    · rw [if_neg (by simpa using h2)]
      constructor
      · intro _
        omega
      · intro _
        decide

/-- `sortObjectValuesDesc` permutes the dictionary entries. -/
theorem sortObjectValuesDesc_perm {A : Type} (klt : A → A → Bool) (dict : Dict A) :
    List.Perm (sortObjectValuesDesc klt dict) dict :=
  sortCmp_perm _ dict

/-- `sortObjectKeysAsc` permutes the dictionary entries. -/
theorem sortObjectKeysAsc_perm {A : Type} (dict : Dict A) :
    List.Perm (sortObjectKeysAsc dict) dict :=
  sortCmp_perm _ dict

/-- The generic `sortObject` permutes the dictionary entries. -/
theorem sortObject_perm {A K : Type} (dict : Dict A) (direction : Direction)
    (getSortKey : String → A → K) (klt : K → K → Bool) :
    List.Perm (sortObject dict direction getSortKey klt) dict :=
  sortCmp_perm _ dict

/-- Entry values are nonincreasing along `sortObjectValuesDesc` on a
number-valued dictionary. -/
theorem sortObjectValuesDesc_pairwise (dict : Dict Nat) :
    List.Pairwise (fun p q : String × Nat => q.2 ≤ p.2)
      (sortObjectValuesDesc natLtB dict) := by
  have h := sortCmp_pairwise
    (fun ra rb : String × Nat =>
      jsCompare natLtB (dirSign Direction.desc) ra.2 rb.2)
    (fun a b => by
      rcases Nat.le_total b.2 a.2 with h | h
      · exact Or.inl ((jsCompare_desc_nat_le a.2 b.2).mpr h)
      · exact Or.inr ((jsCompare_desc_nat_le b.2 a.2).mpr h))
    (fun a b c hab hbc => by
      rw [jsCompare_desc_nat_le] at hab hbc ⊢
      exact hbc.trans hab)
    dict
  exact h.imp (fun hab => (jsCompare_desc_nat_le _ _).mp hab)

/-- In `sortObjectValuesDesc` output, a strictly larger value sits strictly
earlier. -/
theorem sortObjectValuesDesc_gt_before (dict : Dict Nat)
    (i j : Fin (sortObjectValuesDesc natLtB dict).length)
    (h : ((sortObjectValuesDesc natLtB dict).get j).2
       < ((sortObjectValuesDesc natLtB dict).get i).2) :
    (i : Nat) < (j : Nat) := by
  rcases Nat.lt_trichotomy (i : Nat) (j : Nat) with hlt | heq | hgt
  · exact hlt
  · exfalso
    have : i = j := Fin.ext heq
    subst this
    exact Nat.lt_irrefl _ h
  · exfalso
    have hp := List.pairwise_iff_get.mp (sortObjectValuesDesc_pairwise dict) j i hgt
    exact Nat.not_lt.mpr hp h

/-- Filtering the `undefined` entries out of an all-`some` mapped list keeps
every image. -/
theorem filterMap_id_map_some {α β : Type} (f : α → β) (l : List α) :
    (l.map (fun x => some (f x))).filterMap id = l.map f := by
  induction l with
  | nil => rfl
  | cons x xs ih => simp [ih]

/-- A `TreeFolder` over a nonempty all-`some` mapped list keeps exactly the
mapped children. -/
theorem TreeFolder_children_map {α : Type} (label : String) (f : α → TreeItem)
    (l : List α) (h : l ≠ []) :
    (TreeFolder label (l.map (fun x => some (f x)))).children = l.map f := by
  have hlen : (l.map (fun x => some (f x))).length ≠ 0 := by
    simpa using fun hc => h (List.eq_nil_of_length_eq_zero hc)
  simp only [TreeFolder, TreeItem.children, if_neg hlen]
  exact filterMap_id_map_some f l

/-- The Nat-division form of the Props percentage is the mathematical
rounding of `100 * c / T` (ties rounded up). -/
theorem pct_eq_round (c T : Nat) (hT : 0 < T) :
    (((200 * c + T) / (2 * T) : Nat) : ℤ) = round ((100 * (c : ℚ)) / (T : ℚ)) := by
  have hT0 : ((T : ℚ)) ≠ 0 := by exact_mod_cast hT.ne'
  have h2T : ((2 * T : Nat) : ℚ) ≠ 0 := by
    push_cast
    positivity
  rw [round_eq]
  have hx : (100 * (c : ℚ)) / (T : ℚ) + 1 / 2
      = ((200 * c + T : Nat) : ℚ) / ((2 * T : Nat) : ℚ) := by
    push_cast
    field_simp
    ring
  rw [hx]
  rw [← Nat.floor_div_eq_div (α := ℚ) (200 * c + T) (2 * T)]
  exact Int.natCast_floor_eq_floor (α := ℚ) (by positivity)

/-- The label of a `TreeFolder` is the label it was constructed with. -/
theorem TreeFolder_label (label : String) (children : List (Option TreeItem)) :
    (TreeFolder label children).label = label := rfl

/-- The label of a `TreeInfo` is the label it was constructed with. -/
theorem TreeInfo_label (label : String) : (TreeInfo label).label = label := rfl

/-- The `ok`-mode Usage branch of the report section. -/
theorem reportSection_usage (result : Analysis) :
    reportSection (some "Usage") result
      = TreeFolder "Usage Report"
          ((sortObjectValuesDesc natLtB result.componentUsage).map
            (fun p => some (usageLeaf p))) := rfl

/-- The `ok`-mode Props branch of the report section. -/
theorem reportSection_props (result : Analysis) :
    reportSection (some "Props") result
      = TreeFolder "Props Report"
          ((sortObject result.propUsage Direction.desc
              (fun k _ => lookupR result.componentUsage k) optNatLtB).map
            (fun p => some (propComponentFolder result.componentUsage p))) := rfl

/-- C6: `openFile` builds its range and selection from `startLine - 1` and
`endLine - 1` (1-based lines converted to 0-based) while both column values
pass through unchanged; in particular `startLine = 5` selects from the
zero-based line 4. -/
theorem c6_openFile_line_conversion (filename : String)
    (startLine startColumn endLine endColumn : Int) :
    openFile filename startLine startColumn endLine endColumn none =
      [ NavEffect.openDocument filename
      , NavEffect.reveal
          { startLine := startLine - 1, startColumn := startColumn
          , endLine := endLine - 1, endColumn := endColumn }
          RevealType.inCenterIfOutsideViewport
      , NavEffect.setSelection (startLine - 1) startColumn (endLine - 1) endColumn ]
    ∧ openFile filename 5 startColumn endLine endColumn none =
      [ NavEffect.openDocument filename
      , NavEffect.reveal
          { startLine := 4, startColumn := startColumn
          , endLine := endLine - 1, endColumn := endColumn }
          RevealType.inCenterIfOutsideViewport
      , NavEffect.setSelection 4 startColumn (endLine - 1) endColumn ] := by
  constructor
  · rfl
  · norm_num [openFile]

/-- C7: a `TreeFolder` built from an empty child list renders exactly one
child, the placeholder `Info` node labeled "No results"; built from a
non-empty list, its children are the input entries with the `undefined`
entries filtered out. -/
theorem c7_folder_placeholder :
    (∀ label : String, (TreeFolder label []).children = [TreeInfo "No results"])
    ∧ ∀ (label : String) (children : List (Option TreeItem)), children ≠ [] →
        (TreeFolder label children).children = children.filterMap id := by
  constructor
  · intro label
    rfl
  · intro label children h
    have hlen : children.length ≠ 0 :=
      fun hc => h (List.eq_nil_of_length_eq_zero hc)
    simp only [TreeFolder, TreeItem.children, if_neg hlen]

/-- Witness for C7 at concrete child lists. -/
theorem c7_folder_placeholder_witness :
    (TreeFolder "F" []).children = [TreeInfo "No results"]
    ∧ (TreeFolder "F" [some (TreeInfo "a"), none]).children = [TreeInfo "a"] := by
  refine ⟨c7_folder_placeholder.1 "F", ?_⟩
  rw [c7_folder_placeholder.2 "F" [some (TreeInfo "a"), none] (List.cons_ne_nil _ _)]
  rfl

/-- C8: the report builder is deterministic: two invocations of the
tree-building function on the same provider state produce identical node
trees. -/
theorem c8_builder_deterministic (s : ProviderState) (t1 t2 : List TreeItem)
    (h1 : t1 = getChildrenRoot s) (h2 : t2 = getChildrenRoot s) : t1 = t2 :=
  h1.trans h2.symm

/-- Witness for C8 at a concrete state. -/
theorem c8_builder_deterministic_witness :
    getChildrenRoot ⟨none, none, some "Usage", none, Mode.ok sampleAnalysis⟩
      = getChildrenRoot ⟨none, none, some "Usage", none, Mode.ok sampleAnalysis⟩ :=
  c8_builder_deterministic ⟨none, none, some "Usage", none, Mode.ok sampleAnalysis⟩
    _ _ rfl rfl

/-- C9: a `TreeFolder` built from a non-empty input list whose entries are
all `undefined` ends up with zero children and no "No results" placeholder:
the emptiness check runs on the raw input list before the filtering. -/
theorem c9_all_undefined_folder (label : String)
    (children : List (Option TreeItem)) (hne : children ≠ [])
    (hall : ∀ x ∈ children, x = none) :
    (TreeFolder label children).children = [] := by
  have hlen : children.length ≠ 0 :=
    fun hc => hne (List.eq_nil_of_length_eq_zero hc)
  simp only [TreeFolder, TreeItem.children, if_neg hlen]
  exact List.filterMap_eq_nil_iff.mpr (fun a ha => hall a ha)

/-- Witness for C9 at the singleton `undefined` list. -/
theorem c9_all_undefined_folder_witness :
    (TreeFolder "F" [none]).children = [] :=
  c9_all_undefined_folder "F" [none] (List.cons_ne_nil _ _) (by simp)

/-- C3: when the analyze call rejects with an `Error` instance, `refresh`
surfaces the message, resets `Mode` to `empty` (so no `loading` state
remains) and emits a change notification afterwards; a non-Error rejection
is rethrown to the caller and never surfaced as an error message. -/
theorem c3_error_handling (s : ProviderState) (msg : String) :
    (refresh s (AnalyzeOutcome.errorFailure msg)).1.mode = Mode.empty
    ∧ Event.showError msg ∈ (refresh s (AnalyzeOutcome.errorFailure msg)).2
    ∧ (refresh s (AnalyzeOutcome.errorFailure msg)).2.getLast?
        = some Event.fireChange
    ∧ (refresh s (AnalyzeOutcome.errorFailure msg)).1.mode ≠ Mode.loading
    ∧ Event.rethrow ∈ (refresh s AnalyzeOutcome.nonErrorFailure).2
    ∧ ∀ m, Event.showError m ∉ (refresh s AnalyzeOutcome.nonErrorFailure).2 := by
  refine ⟨rfl, ?_, rfl, ?_, ?_, ?_⟩
  · exact List.mem_cons_of_mem _ (List.mem_cons_of_mem _ (List.mem_cons_self _ _))
  · exact fun h => Mode.noConfusion h
  · exact List.mem_cons_of_mem _ (List.mem_cons_of_mem _ (List.mem_cons_self _ _))
  · intro m
    simp [refresh]

/-- C1 counterexample: with `Mode = loading`, `refresh()` still issues an
analyze call and still changes `Mode` — it is not a no-op. -/
theorem c1_counterexample :
    Event.analyzeCall { directory := none, components := [], prop := none }
      ∈ (refresh ⟨none, none, none, none, Mode.loading⟩
          (AnalyzeOutcome.success sampleAnalysis)).2
    ∧ (refresh ⟨none, none, none, none, Mode.loading⟩
        (AnalyzeOutcome.success sampleAnalysis)).1.mode ≠ Mode.loading := by
  constructor
  · decide
  · decide

/-- C1 amended: there is no re-entrancy guard: invoked while `Mode =
loading`, `refresh()` issues another analyze call built from the stored
option fields, and `run()` also reaches an analyze call whenever the option
prompts complete successfully. -/
theorem c1_amended_no_guard (s : ProviderState) (o : AnalyzeOutcome)
    (i : PromptInputs) (_h : s.mode = Mode.loading) :
    Event.analyzeCall (refreshOptions s) ∈ (refresh s o).2
    ∧ ((getOptions s i).1 = true →
        ∃ opts, Event.analyzeCall opts ∈ (run s i o).2) := by
  constructor
  · cases o <;> exact List.mem_cons_of_mem _ (List.mem_cons_self _ _)
  · intro hok
    rcases hg : getOptions s i with ⟨b, s1, ev⟩
    rw [hg] at hok
    simp only at hok
    subst hok
    have hrun : run s i o = ((refresh s1 o).1, ev ++ (refresh s1 o).2) := by
      unfold run
      rw [hg]
    refine ⟨refreshOptions s1, ?_⟩
    rw [hrun]
    apply List.mem_append_right
    cases o <;> exact List.mem_cons_of_mem _ (List.mem_cons_self _ _)

/-- Witness for C1 amended at a concrete loading state. -/
theorem c1_amended_no_guard_witness :
    Event.analyzeCall (refreshOptions ⟨none, none, none, none, Mode.loading⟩)
      ∈ (refresh ⟨none, none, none, none, Mode.loading⟩
          (AnalyzeOutcome.success sampleAnalysis)).2
    ∧ ∃ opts, Event.analyzeCall opts
        ∈ (run ⟨none, none, none, none, Mode.loading⟩
            ⟨[⟨"file", "/project"⟩], none, some "", some ReportChoice.usage, none⟩
            (AnalyzeOutcome.success sampleAnalysis)).2 := by
  have h := c1_amended_no_guard ⟨none, none, none, none, Mode.loading⟩
    (AnalyzeOutcome.success sampleAnalysis)
    ⟨[⟨"file", "/project"⟩], none, some "", some ReportChoice.usage, none⟩ rfl
  exact ⟨h.1, h.2 (by decide)⟩

/-- C2 counterexample: with `Mode = empty`, `refresh()` analyzes with the
previously stored fields instead of collecting options: on the same state,
`run()` (whose prompts enter the components `"Card"`) analyzes `["Card"]`,
while `refresh()` analyzes the stored `["Button"]` without any prompting. -/
theorem c2_counterexample :
    (refresh ⟨some "/w", some "Button", some "Usage", none, Mode.empty⟩
        (AnalyzeOutcome.success sampleAnalysis)).2
      = [ Event.fireChange
        , Event.analyzeCall
            { directory := some "/w", components := ["Button"], prop := none }
        , Event.fireChange ]
    ∧ (run ⟨some "/w", some "Button", some "Usage", none, Mode.empty⟩
        ⟨[⟨"file", "/w2"⟩], none, some "Card", some ReportChoice.usage, none⟩
        (AnalyzeOutcome.success sampleAnalysis)).2
      = [ Event.fireChange
        , Event.analyzeCall
            { directory := some "/w2", components := ["Card"], prop := none }
        , Event.fireChange ]
    ∧ (refresh ⟨some "/w", some "Button", some "Usage", none, Mode.empty⟩
        (AnalyzeOutcome.success sampleAnalysis)).2
      ≠ (run ⟨some "/w", some "Button", some "Usage", none, Mode.empty⟩
          ⟨[⟨"file", "/w2"⟩], none, some "Card", some ReportChoice.usage, none⟩
          (AnalyzeOutcome.success sampleAnalysis)).2 := by
  refine ⟨?_, ?_, ?_⟩ <;> decide

/-- C2 amended: `refresh()` never re-prompts in any mode: it immediately
fires a change notification and issues the analyze call built from the
currently stored option fields — so while `Ok` it re-runs the same stored
options without re-prompting, and while `Empty` it analyzes the stored
(possibly unset) fields instead of collecting options like `run()` does. -/
theorem c2_amended_refresh_uses_stored (s : ProviderState) (o : AnalyzeOutcome) :
    ∃ rest, (refresh s o).2
      = Event.fireChange :: Event.analyzeCall (refreshOptions s) :: rest := by
  cases o <;> exact ⟨_, rfl⟩

/-- C5 counterexample: the Usage leaf joins the count and the component name
with the `"  ·  "` separator, so for `Button` with usage 10 the label is
`"10  ·  <Button>"` and not the claimed `"10 <Button>"`. -/
theorem c5_counterexample :
    (((getChildrenRoot
          ⟨some "/project", none, some "Usage", none, Mode.ok usageAnalysis⟩).getLast?.bind
        (fun t => t.children.head?)).map TreeItem.label) = some "10  ·  <Button>"
    ∧ (((getChildrenRoot
          ⟨some "/project", none, some "Usage", none, Mode.ok usageAnalysis⟩).getLast?.bind
        (fun t => t.children.head?)).map TreeItem.label) ≠ some "10 <Button>" := by
  constructor
  · decide
  · decide

/-- C5 amended: the Usage report is the last root item; it holds exactly one
`Info` leaf per entry of `componentUsage` (its children are the
descending-by-usage permutation of the entries mapped to leaves), each leaf
labeled `"{count}  ·  <{component}>"` (with the `"  ·  "` separator rather
than a single space), and every component with strictly larger usage count
appears strictly before one with a smaller count. -/
theorem c5_amended_usage_report (result : Analysis)
    (sd scomp sprop : Option String) (hne : result.componentUsage ≠ []) :
    (getChildrenRoot ⟨sd, scomp, some "Usage", sprop, Mode.ok result⟩).getLast?
        = some (reportSection (some "Usage") result)
    ∧ (reportSection (some "Usage") result).label = "Usage Report"
    ∧ (reportSection (some "Usage") result).children
        = (sortObjectValuesDesc natLtB result.componentUsage).map usageLeaf
    ∧ List.Perm (sortObjectValuesDesc natLtB result.componentUsage)
        result.componentUsage
    ∧ (∀ i j : Fin (sortObjectValuesDesc natLtB result.componentUsage).length,
        ((sortObjectValuesDesc natLtB result.componentUsage).get j).2
            < ((sortObjectValuesDesc natLtB result.componentUsage).get i).2
          → (i : Nat) < (j : Nat))
    ∧ ∀ p : String × Nat,
        usageLeaf p = TreeInfo (toString p.2 ++ sep ++ "<" ++ p.1 ++ ">") := by
  refine ⟨rfl, rfl, ?_, sortObjectValuesDesc_perm _ _,
    sortObjectValuesDesc_gt_before _, fun p => rfl⟩
  rw [reportSection_usage]
  apply TreeFolder_children_map
  intro h0
  have hperm := sortObjectValuesDesc_perm natLtB result.componentUsage
  rw [h0] at hperm
  exact hne hperm.symm.eq_nil

/-- Witness for C5 amended at a concrete two-component usage table. -/
theorem c5_amended_usage_report_witness :
    (getChildrenRoot
        ⟨some "/project", none, some "Usage", none, Mode.ok usageAnalysis⟩).getLast?
      = some (reportSection (some "Usage") usageAnalysis)
    ∧ List.Perm (sortObjectValuesDesc natLtB usageAnalysis.componentUsage)
        usageAnalysis.componentUsage := by
  have h := c5_amended_usage_report usageAnalysis (some "/project") none none
    (by decide)
  exact ⟨h.1, h.2.2.2.1⟩

/-- C4 counterexample: for `Button` with total usage 4 and prop `id` with
count 2 the rendered `50%` sits inside the leaf's label, while the leaf's
`description` is `undefined` — not the claimed `description = "50%"`. -/
theorem c4_counterexample :
    ((((getChildrenRoot
            ⟨some "/project", none, some "Props", none, Mode.ok propsAnalysis⟩).getLast?.bind
          (fun t => t.children.head?)).bind
        (fun t => t.children.head?)).map TreeItem.label)
      = some "2  ·  id  ·  50%"
    ∧ ((((getChildrenRoot
            ⟨some "/project", none, some "Props", none, Mode.ok propsAnalysis⟩).getLast?.bind
          (fun t => t.children.head?)).bind
        (fun t => t.children.head?)).map TreeItem.description)
      = some none
    ∧ ((((getChildrenRoot
            ⟨some "/project", none, some "Props", none, Mode.ok propsAnalysis⟩).getLast?.bind
          (fun t => t.children.head?)).bind
        (fun t => t.children.head?)).map TreeItem.description)
      ≠ some (some "50%") := by
  refine ⟨?_, ?_, ?_⟩ <;> decide

/-- C4 amended: in the Props report, for a component with total usage
`T > 0` and a prop of it with count `c`, the rendered percentage equals
`round (100 * c / T)` and appears inside the prop leaf's label, which has
the form `"{count}  ·  {propName}  ·  {percent}%"`; the leaf's
`description` is always `undefined` — the percentage is rendered into the
label, never as a description. -/
theorem c4_amended_props_percentage (result : Analysis)
    (sd scomp sprop : Option String) (componentName propName : String)
    (pu : Dict Nat) (T c : Nat)
    (hmem : (componentName, pu) ∈ result.propUsage)
    (hT : lookupR result.componentUsage componentName = some T)
    (hTpos : 0 < T) (hc : (propName, c) ∈ pu) :
    (getChildrenRoot ⟨sd, scomp, some "Props", sprop, Mode.ok result⟩).getLast?
        = some (reportSection (some "Props") result)
    ∧ ∃ folder ∈ (reportSection (some "Props") result).children,
        folder.label = "<" ++ componentName ++ ">" ++ sep ++ toString T
        ∧ ∃ leaf ∈ folder.children,
            leaf.description = none
            ∧ ∃ p : Nat,
                leaf.label
                  = toString c ++ sep ++ propName ++ sep ++ toString p ++ "%"
                ∧ (p : ℤ) = round ((100 * (c : ℚ)) / (T : ℚ)) := by
  have hmem1 : (componentName, pu)
      ∈ sortObject result.propUsage Direction.desc
          (fun k _ => lookupR result.componentUsage k) optNatLtB :=
    (sortObject_perm _ _ _ _).mem_iff.mpr hmem
  have hmem2 : (propName, c) ∈ sortObjectValuesDesc natLtB pu :=
    (sortObjectValuesDesc_perm _ _).mem_iff.mpr hc
  have hch : (reportSection (some "Props") result).children
      = (sortObject result.propUsage Direction.desc
          (fun k _ => lookupR result.componentUsage k) optNatLtB).map
          (propComponentFolder result.componentUsage) := by
    rw [reportSection_props]
    exact TreeFolder_children_map _ _ _ (List.ne_nil_of_mem hmem1)
  have hch2 : (propComponentFolder result.componentUsage (componentName, pu)).children
      = (sortObjectValuesDesc natLtB pu).map
          (propLeaf (lookupR result.componentUsage componentName)) := by
    unfold propComponentFolder
    exact TreeFolder_children_map _ _ _ (List.ne_nil_of_mem hmem2)
  refine ⟨rfl, propComponentFolder result.componentUsage (componentName, pu),
    ?_, ?_, propLeaf (lookupR result.componentUsage componentName) (propName, c),
    ?_, rfl, (200 * c + T) / (2 * T), ?_, pct_eq_round c T hTpos⟩
  · rw [hch]
    exact List.mem_map_of_mem _ hmem1
  · unfold propComponentFolder
    rw [TreeFolder_label, hT]
    rfl
  · rw [hch2]
    exact List.mem_map_of_mem _ hmem2
  · unfold propLeaf
    rw [TreeInfo_label, hT]
    show toString c ++ sep ++ propName ++ sep
        ++ (if T = 0 then (if c = 0 then "NaN" else "Infinity")
            else toString ((200 * c + T) / (2 * T))) ++ "%" = _
    rw [if_neg hTpos.ne']

/-- Witness for C4 amended at a concrete props table. -/
theorem c4_amended_props_percentage_witness :
    (getChildrenRoot
        ⟨some "/project", none, some "Props", none, Mode.ok propsAnalysis⟩).getLast?
        = some (reportSection (some "Props") propsAnalysis)
    ∧ ∃ folder ∈ (reportSection (some "Props") propsAnalysis).children,
        folder.label = "<" ++ "Button" ++ ">" ++ sep ++ toString 4
        ∧ ∃ leaf ∈ folder.children,
            leaf.description = none
            ∧ ∃ p : Nat,
                leaf.label
                  = toString 2 ++ sep ++ "id" ++ sep ++ toString p ++ "%"
                ∧ (p : ℤ) = round ((100 * ((2 : Nat) : ℚ)) / (((4 : Nat)) : ℚ)) :=
  c4_amended_props_percentage propsAnalysis (some "/project") none none
    "Button" "id" [("id", 2)] 4 2 (by decide) (by decide) (by decide) (by decide)


/-- Successful option collection makes `run` forward the collected state to
`refresh` and concatenate the event traces. -/
theorem run_events_of_getOptions (s : ProviderState) (i : PromptInputs)
    (o : AnalyzeOutcome) (s1 : ProviderState) (ev : List Event)
    (hg : getOptions s i = (true, s1, ev)) :
    run s i o = ((refresh s1 o).1, ev ++ (refresh s1 o).2) := by
  unfold run
  rw [hg]

/-- C10: when the option prompts complete with a report other than `Lines`,
`_getOptions` succeeds without touching `searchProp`, so a prop stored by an
earlier `Lines` run is still the one passed to the analyze collaborator on
the subsequent `Usage` or `Props` run. -/
theorem c10_prop_filter_persists (s : ProviderState) (i : PromptInputs)
    (o : AnalyzeOutcome) (d : WorkspaceFolder) (comp : String)
    (choice : ReportChoice) (hd : pickDir i = some d)
    (hscheme : d.scheme = "file") (hcomp : i.componentsInput = some comp)
    (hpick : i.reportPick = some choice)
    (hnl : choice ≠ ReportChoice.lines) :
    (getOptions s i).1 = true
    ∧ (getOptions s i).2.1.searchProp = s.searchProp
    ∧ ∃ opts, Event.analyzeCall opts ∈ (run s i o).2
        ∧ opts.prop = s.searchProp := by
  have hlabel : choice.label ≠ "Lines" := by
    cases choice
    · decide
    · decide
    · exact absurd rfl hnl
  have hg : getOptions s i = (true, optionsResultState s d comp choice, []) := by
    simp only [getOptions, hd, hscheme, hcomp, hpick]
    rw [if_neg hlabel]
    rfl
  refine ⟨by rw [hg], by rw [hg]; rfl, ?_⟩
  refine ⟨refreshOptions (optionsResultState s d comp choice), ?_, rfl⟩
  rw [run_events_of_getOptions s i o _ _ hg]
  apply List.mem_append_right
  cases o <;> exact List.mem_cons_of_mem _ (List.mem_cons_self _ _)

/-- Witness for C10: a prop stored by an earlier `Lines` run survives a
subsequent `Usage` prompt round and is passed to the analyze call. -/
theorem c10_prop_filter_persists_witness :
    (getOptions ⟨some "/w", none, some "Lines", some "id", Mode.empty⟩
        ⟨[⟨"file", "/w"⟩], none, some "Button", some ReportChoice.usage, none⟩).1
      = true
    ∧ (getOptions ⟨some "/w", none, some "Lines", some "id", Mode.empty⟩
        ⟨[⟨"file", "/w"⟩], none, some "Button", some ReportChoice.usage, none⟩).2.1.searchProp
      = some "id"
    ∧ ∃ opts, Event.analyzeCall opts
        ∈ (run ⟨some "/w", none, some "Lines", some "id", Mode.empty⟩
            ⟨[⟨"file", "/w"⟩], none, some "Button", some ReportChoice.usage, none⟩
            (AnalyzeOutcome.success sampleAnalysis)).2
        ∧ opts.prop = some "id" :=
  c10_prop_filter_persists
    ⟨some "/w", none, some "Lines", some "id", Mode.empty⟩
    ⟨[⟨"file", "/w"⟩], none, some "Button", some ReportChoice.usage, none⟩
    (AnalyzeOutcome.success sampleAnalysis)
    ⟨"file", "/w"⟩ "Button" ReportChoice.usage rfl rfl rfl rfl (by decide)
